import Mathlib

/-!
Verification of the AiSG audit platform against its specification.

The authentication and authorization layer is embedded from
`server/auth.ts`; the request-validation layer from the drizzle-zod
schema (`insertAuditSchema`) and the `POST /api/audit` handler in
`server/routes.ts` / `server/storage.ts`.  The evaluation engine
(`server/business-logic.ts`, `processAuditData`) is not present in the
repository snapshot — only its callers and its result-type declarations
are — so it is modelled from the specification (§4 of the design
document), as indicated on each definition.
-/

namespace AiSG

/-- User roles, from the `users.role` column type in the shared schema. -/
inductive Role where
  | full_admin
  | admin
  | auditor
  | regular_user
deriving Repr, DecidableEq

/-- The numeric role hierarchy of `hasPermission` in `server/auth.ts`
(`full_admin: 4, admin: 3, auditor: 2, regular_user: 1`). -/
def roleHierarchy : Role → Nat
  | .full_admin => 4
  | .admin => 3
  | .auditor => 2
  | .regular_user => 1

/-- `hasPermission` from `server/auth.ts`:
`hierarchy[userRole] >= hierarchy[requiredRole]`.  Both copies of the
function in the file have this same body. -/
def hasPermission (userRole requiredRole : Role) : Bool :=
  roleHierarchy userRole ≥ roleHierarchy requiredRole

/-- `canAccessAudit` from `server/auth.ts`: full_admin and admin always
pass; otherwise `userId === auditOwnerId`, where the owner id may be
null (comparison against null is false).  Both copies of the function
in the file have this same behavior. -/
def canAccessAudit (userRole : Role) (userId : String)
    (auditOwnerId : Option String) : Bool :=
  if userRole = .full_admin then true
  else if userRole = .admin then true
  else match auditOwnerId with
    | some owner => userId == owner
    | none => false

/-- A row of the `users` table, restricted to the fields the
authentication path reads. -/
structure UserRec where
  id : String
  username : String
  password : String
  name : String
  role : Role
deriving Repr, DecidableEq

/-- The shape `Omit<User, "password">` returned by `authenticateUser`:
the user record with the password field removed. -/
structure UserSansPassword where
  id : String
  username : String
  name : String
  role : Role
deriving Repr, DecidableEq

/-- Drops the password field, as the destructuring
`const \x7b password: _, ...userWithoutPassword \x7d = user` does. -/
def stripPassword (u : UserRec) : UserSansPassword :=
  { id := u.id, username := u.username, name := u.name, role := u.role }

/-- The `SELECT * FROM users WHERE username = $1 LIMIT 1` lookup. -/
def findUserByUsername (dbUsers : List UserRec) (username : String) :
    Option UserRec :=
  dbUsers.find? (fun u => u.username == username)

/-- `authenticateUser` from `server/auth.ts`.  The bcrypt comparison
(`verifyPassword`) is an external library call, abstracted as the
`verify` parameter.  Both copies of the function in the file have this
same body: look the user up by username, return null if absent, return
null if the password does not verify against the stored hash, otherwise
return the user without its password field. -/
def authenticateUser (verify : String → String → Bool)
    (dbUsers : List UserRec) (username password : String) :
    Option UserSansPassword :=
  match findUserByUsername dbUsers username with
  | none => none
  | some user =>
      if verify password user.password then some (stripPassword user)
      else none

/-- One entry of the `pillarAnswers` input array: the request schema
accepts only `pillarId` and `selfScore` ("backend adds the rest"). -/
structure PillarSelfAnswer where
  pillarId : Int
  selfScore : Int
deriving Repr, DecidableEq

/-- The shape accepted by `insertAuditSchema` (the `audits` table of the
shared schema minus the computed columns): identity fields, quarterly
team and personal metrics, the team-structure snapshot, and the 18
pillar self-answers. -/
structure AuditSubmission where
  nama : String
  jabatan : String
  cabang : String
  tanggalLahir : String
  marginTimQ1 : Int
  marginTimQ2 : Int
  marginTimQ3 : Int
  marginTimQ4 : Int
  naTimQ1 : Int
  naTimQ2 : Int
  naTimQ3 : Int
  naTimQ4 : Int
  marginPribadiQ1 : Int
  marginPribadiQ2 : Int
  marginPribadiQ3 : Int
  marginPribadiQ4 : Int
  nasabahPribadiQ1 : Int
  nasabahPribadiQ2 : Int
  nasabahPribadiQ3 : Int
  nasabahPribadiQ4 : Int
  jumlahBC : Int
  jumlahSBC : Int
  jumlahBsM : Int
  jumlahSBM : Int
  jumlahEM : Int
  jumlahSEM : Int
  jumlahVBM : Int
  jumlahBrM : Int
  pillarAnswers : List PillarSelfAnswer

/-- The birth-date format check of the schema:
`z.string().regex(^\d\x7b2\x7d-\d\x7b2\x7d-\d\x7b4\x7d$)`, i.e. exactly
two digits, a dash, two digits, a dash, four digits. -/
def matchesDDMMYYYY (s : String) : Bool :=
  match s.data with
  | [a, b, '-', c, d, '-', e, f, g, h] =>
      a.isDigit && b.isDigit && c.isDigit && d.isDigit &&
      e.isDigit && f.isDigit && g.isDigit && h.isDigit
  | _ => false

/-- One pillar entry of the schema:
`pillarId: z.number().int().min(1).max(18)` and
`selfScore: z.number().int().min(1).max(5)`. -/
def validPillarEntry (p : PillarSelfAnswer) : Bool :=
  decide (1 ≤ p.pillarId) && decide (p.pillarId ≤ 18) &&
  decide (1 ≤ p.selfScore) && decide (p.selfScore ≤ 5)

/-- Success of `insertAuditSchema.parse`: team metrics nonnegative,
personal metrics any integer (withdrawals allowed), team structure
nonnegative for BC..VBM (the schema places no range on `jumlahBrM`),
birth date in DD-MM-YYYY shape, and `pillarAnswers` an array of exactly
18 entries each with `pillarId ∈ [1,18]` and `selfScore ∈ [1,5]`. -/
def insertAuditValid (a : AuditSubmission) : Bool :=
  decide (0 ≤ a.marginTimQ1) && decide (0 ≤ a.marginTimQ2) &&
  decide (0 ≤ a.marginTimQ3) && decide (0 ≤ a.marginTimQ4) &&
  decide (0 ≤ a.naTimQ1) && decide (0 ≤ a.naTimQ2) &&
  decide (0 ≤ a.naTimQ3) && decide (0 ≤ a.naTimQ4) &&
  decide (0 ≤ a.jumlahBC) && decide (0 ≤ a.jumlahSBC) &&
  decide (0 ≤ a.jumlahBsM) && decide (0 ≤ a.jumlahSBM) &&
  decide (0 ≤ a.jumlahEM) && decide (0 ≤ a.jumlahSEM) &&
  decide (0 ≤ a.jumlahVBM) &&
  matchesDDMMYYYY a.tanggalLahir &&
  (a.pillarAnswers.length == 18) &&
  a.pillarAnswers.all validPillarEntry

/-- Modelled from the spec: `server/business-logic.ts` is absent from
the snapshot, so the engine's static configuration (§4.1, §9) — the
pillar category table, breakpoints inputs, damping factor, minimum
normalization denominator, role-tier targets and next-tier staffing
minimum — is represented as an explicit configuration structure, as
§9 prescribes.  The exact metric formula is left open by §9, so the
per-pillar metric value and target are configuration functions. -/
structure EngineConfig where
  damping : ℚ
  epsilon : ℚ
  isMetricBacked : Int → Bool
  pillarTitle : Int → String
  metricValue : AuditSubmission → Int → ℚ
  metricTarget : AuditSubmission → Int → ℚ
  targetMarginOf : String → Int
  targetNAOf : String → Int
  nextLevelOf : String → String
  nextTierMinStaff : Int

/-- Modelled from the spec (§4.1): the fixed breakpoints bucketing a
normalized score in [0,1] into 1..5
(`≥0.9→5, ≥0.7→4, ≥0.5→3, ≥0.3→2, else 1`). -/
def bucketScore (x : ℚ) : Int :=
  if 9/10 ≤ x then 5
  else if 7/10 ≤ x then 4
  else if 1/2 ≤ x then 3
  else if 3/10 ≤ x then 2
  else 1

/-- Clamp a normalized ratio into [0,1]. -/
def clamp01 (x : ℚ) : ℚ := min 1 (max 0 x)

/-- Modelled from the spec (§4.1): behavioral pillars score
`round(selfScore × damping)`, floor-clamped to 1. -/
def behavioralRealityScore (cfg : EngineConfig) (selfScore : Int) : Int :=
  max 1 (round ((selfScore : ℚ) * cfg.damping))

/-- The all-zero quarterly-metrics predicate of the new-hire edge case
(§4.1): every team and personal quarterly metric is 0. -/
def allQuarterMetricsZero (a : AuditSubmission) : Bool :=
  decide (a.marginTimQ1 = 0) && decide (a.marginTimQ2 = 0) &&
  decide (a.marginTimQ3 = 0) && decide (a.marginTimQ4 = 0) &&
  decide (a.naTimQ1 = 0) && decide (a.naTimQ2 = 0) &&
  decide (a.naTimQ3 = 0) && decide (a.naTimQ4 = 0) &&
  decide (a.marginPribadiQ1 = 0) && decide (a.marginPribadiQ2 = 0) &&
  decide (a.marginPribadiQ3 = 0) && decide (a.marginPribadiQ4 = 0) &&
  decide (a.nasabahPribadiQ1 = 0) && decide (a.nasabahPribadiQ2 = 0) &&
  decide (a.nasabahPribadiQ3 = 0) && decide (a.nasabahPribadiQ4 = 0)

/-- The normalization denominator of a metric-backed pillar, clamped to
the minimum epsilon (§4.1: "normalization denominator is clamped to a
minimum epsilon"). -/
def normDenominator (cfg : EngineConfig) (a : AuditSubmission)
    (pid : Int) : ℚ :=
  max (cfg.metricTarget a pid) cfg.epsilon

/-- Modelled from the spec (§4.1, Reality Score Calculator): a
metric-backed pillar normalizes its quarter-over-quarter metric against
the role-tier target and buckets the result; under the all-zero-metrics
edge case it falls back to the behavioral formula; a behavioral pillar
uses `round(selfScore × damping)` floor-clamped to 1. -/
def realityScoreOf (cfg : EngineConfig) (a : AuditSubmission)
    (p : PillarSelfAnswer) : Int :=
  if cfg.isMetricBacked p.pillarId then
    if allQuarterMetricsZero a then behavioralRealityScore cfg p.selfScore
    else bucketScore
      (clamp01 (cfg.metricValue a p.pillarId / normDenominator cfg a p.pillarId))
  else behavioralRealityScore cfg p.selfScore

/-- One derived per-pillar assessment (§3 `PillarAssessment`, the
`pillarAnswers` jsonb element of the `audits` table). -/
structure PillarAssessment where
  pillarId : Int
  pillarName : String
  selfScore : Int
  realityScore : Int
  gap : Int
  insight : String
deriving Repr, DecidableEq

/-- Modelled from the spec (§4.2): gap classification text,
`≥2 → significant overestimation`, `1 → mild overestimation`,
`0 → accurate self-awareness`, `≤ -1 → underestimation`. -/
def gapClassOf (gap : Int) : String :=
  if 2 ≤ gap then "significant overestimation"
  else if gap = 1 then "mild overestimation"
  else if gap = 0 then "accurate self-awareness"
  else "underestimation"

/-- Modelled from the spec (§4.2): insight text generated from a
template keyed by (pillar, classification), parameterized with the
numeric gap. -/
def insightTextOf (pname cls : String) (gap : Int) : String :=
  pname ++ ": " ++ cls ++ " dengan gap " ++ toString gap

/-- Modelled from the spec (§4.1–§4.2): build the full per-pillar
assessment, with `gap = selfScore - realityScore` exactly. -/
def mkAssessment (cfg : EngineConfig) (a : AuditSubmission)
    (p : PillarSelfAnswer) : PillarAssessment :=
  let r := realityScoreOf cfg a p
  let g := p.selfScore - r
  { pillarId := p.pillarId
    pillarName := cfg.pillarTitle p.pillarId
    selfScore := p.selfScore
    realityScore := r
    gap := g
    insight := insightTextOf (cfg.pillarTitle p.pillarId) (gapClassOf g) g }

/-- The 18 assessments of one engine run, in submission order. -/
def assessmentsOf (cfg : EngineConfig) (a : AuditSubmission) :
    List PillarAssessment :=
  a.pillarAnswers.map (mkAssessment cfg a)

/-- `totalRealityScore`: the sum of the per-pillar reality scores
(§4.3). -/
def totalRealityOf (cfg : EngineConfig) (a : AuditSubmission) : Int :=
  ((assessmentsOf cfg a).map (fun x => x.realityScore)).sum

/-- `totalSelfScore`: the sum of the self scores. -/
def totalSelfOf (cfg : EngineConfig) (a : AuditSubmission) : Int :=
  ((assessmentsOf cfg a).map (fun x => x.selfScore)).sum

/-- Modelled from the spec (§4.3, Zone Classifier): the final zone
buckets the full total, `≥75 → hijau`, `51–74 → kuning`,
`≤50 → merah`. -/
def zonaFinalOf (total : Int) : String :=
  if 75 ≤ total then "hijau"
  else if 51 ≤ total then "kuning"
  else "merah"

/-- Modelled from the spec (§4.3): the Kinerja/Perilaku zones bucket a
subtotal scaled to the 0–90-equivalent range, with the same thresholds
as the final zone so that they are comparable. -/
def zona3Of (scaled : ℚ) : String :=
  if 75 ≤ scaled then "success"
  else if 51 ≤ scaled then "warning"
  else "critical"

/-- Scale a category subtotal to the 0–90-equivalent range: a category
of `count` pillars totals at most `5*count`, scaled by `18/count`. -/
def scaledSubtotal (subtotal : Int) (count : Nat) : ℚ :=
  if count = 0 then 0 else (subtotal : ℚ) * 18 / (count : ℚ)

/-- Modelled from the spec (§4.4, Profile Classifier): the decision
table over the two zones; success/success → Leader, success/other →
Visionary (ties resolve to Visionary), other/success → Performer,
other/other → At-Risk. -/
def profileOf (zk zp : String) : String :=
  if zk == "success" && zp == "success" then "Leader"
  else if zk == "success" then "Visionary"
  else if zp == "success" then "Performer"
  else "At-Risk"

/-- Modelled from the spec (§4.1): the employee's current role level is
inferred from the team-structure counts — the highest subordinate tier
present determines the tier above it. -/
def currentLevelOf (a : AuditSubmission) : String :=
  if 1 ≤ a.jumlahVBM then "BrM"
  else if 1 ≤ a.jumlahSEM then "VBM"
  else if 1 ≤ a.jumlahEM then "SEM"
  else if 1 ≤ a.jumlahSBM then "EM"
  else if 1 ≤ a.jumlahBsM then "SBM"
  else if 1 ≤ a.jumlahSBC then "BsM"
  else if 1 ≤ a.jumlahBC then "SBC"
  else "BC"

/-- The evaluation date the Quarter Progress Tracker reads (§4.7):
month and day-of-year of the run, plus the calendar year. -/
structure EvalDate where
  month : Int
  dayOfYear : Int
  year : Int
deriving Repr, DecidableEq

/-- Modelled from the spec (§4.7): the active quarter from the current
date. -/
def kuartalOf (month : Int) : String :=
  if month ≤ 3 then "Q1"
  else if month ≤ 6 then "Q2"
  else if month ≤ 9 then "Q3"
  else "Q4"

/-- Last day-of-year of the quarter containing the given month. -/
def quarterEndDay (month : Int) : Int :=
  if month ≤ 3 then 90
  else if month ≤ 6 then 181
  else if month ≤ 9 then 273
  else 365

/-- Modelled from the spec (§4.7): `sisaHari`, the days remaining in
the active quarter — a function of the evaluation date alone. -/
def sisaHariOf (d : EvalDate) : Int :=
  quarterEndDay d.month - d.dayOfYear

/-- The quarter's realized team margin, selected by active quarter. -/
def realisasiMarginOf (a : AuditSubmission) (q : String) : Int :=
  if q == "Q1" then a.marginTimQ1
  else if q == "Q2" then a.marginTimQ2
  else if q == "Q3" then a.marginTimQ3
  else a.marginTimQ4

/-- The quarter's realized team new accounts, selected by active
quarter. -/
def realisasiNAOf (a : AuditSubmission) (q : String) : Int :=
  if q == "Q1" then a.naTimQ1
  else if q == "Q2" then a.naTimQ2
  else if q == "Q3" then a.naTimQ3
  else a.naTimQ4

/-- Modelled from the spec (§4.7): percentage realization
`realisasi / target × 100`, clamped to report 0 rather than a negative
or undefined value when the target is 0. -/
def pctOf (realisasi target : Int) : ℚ :=
  if target ≤ 0 then 0
  else max 0 ((realisasi : ℚ) / (target : ℚ) * 100)

/-- The `progressKuartal` section of the audit report (§3
`QuarterProgress`, the jsonb shape of the `audits` table). -/
structure QuarterProgress where
  kuartalBerjalan : String
  sisaHari : Int
  targetMargin : Int
  realisasiMargin : Int
  percentageMargin : ℚ
  targetNA : Int
  realisasiNA : Int
  percentageNA : ℚ
  catatan : String
deriving Repr, DecidableEq

/-- Modelled from the spec (§4.7, Quarter Progress Tracker). -/
def quarterProgressOf (cfg : EngineConfig) (a : AuditSubmission)
    (d : EvalDate) : QuarterProgress :=
  let q := kuartalOf d.month
  let lvl := currentLevelOf a
  let tm := cfg.targetMarginOf lvl
  let rm := realisasiMarginOf a q
  let tna := cfg.targetNAOf lvl
  let rna := realisasiNAOf a q
  { kuartalBerjalan := q
    sisaHari := sisaHariOf d
    targetMargin := tm
    realisasiMargin := rm
    percentageMargin := pctOf rm tm
    targetNA := tna
    realisasiNA := rna
    percentageNA := pctOf rna tna
    catatan := "Realisasi kuartal " ++ q ++ " untuk level " ++ lvl }

/-- One ProDem requirement entry (§3): label, value and `met` flag. -/
structure Requirement where
  label : String
  value : String
  met : Bool
deriving Repr, DecidableEq

/-- The ProDem recommendation shape (§3, the `prodemRekomendasi` jsonb
of the `audits` table). -/
structure ProDemRecommendation where
  currentLevel : String
  recommendation : String
  nextLevel : Option String
  reason : String
  konsekuensi : String
  nextStep : String
  strategyType : String
  requirements : List Requirement
deriving Repr, DecidableEq

/-- The margin-based eligibility condition (§4.5): quarter margin
realization at 100% or more of the role-tier target. -/
def marginReqMet (cfg : EngineConfig) (a : AuditSubmission)
    (q : String) : Bool :=
  decide ((cfg.targetMarginOf (currentLevelOf a) : Int) ≤ realisasiMarginOf a q)

/-- The staff-based eligibility condition (§4.5): the next role tier's
team-structure minimum, a minimum count of the direct subordinate
tier. -/
def staffReqMet (cfg : EngineConfig) (a : AuditSubmission) : Bool :=
  decide (cfg.nextTierMinStaff ≤ a.jumlahBC)

/-- Modelled from the spec (§4.5): every requirement entry is evaluated
independently of the recommendation branch and reported with its `met`
flag, so the caller always sees the full eligibility picture. -/
def requirementsOf (cfg : EngineConfig) (a : AuditSubmission)
    (q : String) : List Requirement :=
  [ { label := "Margin kuartal >= 100% target"
      value := toString (realisasiMarginOf a q) ++ " / " ++
        toString (cfg.targetMarginOf (currentLevelOf a))
      met := marginReqMet cfg a q }
  , { label := "Minimum staf tier berikutnya"
      value := toString a.jumlahBC ++ " / " ++ toString cfg.nextTierMinStaff
      met := staffReqMet cfg a } ]

/-- Fractional attainment of the margin requirement, used to pick the
closer save strategy (§4.5). -/
def marginAttainment (cfg : EngineConfig) (a : AuditSubmission)
    (q : String) : ℚ :=
  pctOf (realisasiMarginOf a q) (cfg.targetMarginOf (currentLevelOf a))

/-- Fractional attainment of the staff requirement. -/
def staffAttainment (cfg : EngineConfig) (a : AuditSubmission) : ℚ :=
  pctOf a.jumlahBC cfg.nextTierMinStaff

/-- Modelled from the spec (§4.5, ProDem Recommendation Engine): the
four terminal states — Promosi for a Leader at full margin realization
with every next-tier requirement met; Demosi for an At-Risk profile in
the critical final zone with no save requirement met; Pembinaan for
Performer/At-Risk with at least one save requirement met, choosing
`Save by Margin` when the margin requirement is closer to being met
than the staff one, else `Save by Staff`; Dipertahankan otherwise.
The `requirements` list is the branch-independent `requirementsOf`. -/
def prodemOf (cfg : EngineConfig) (a : AuditSubmission)
    (profil zonaFinal q : String) : ProDemRecommendation :=
  let lvl := currentLevelOf a
  let reqs := requirementsOf cfg a q
  let marginMet := marginReqMet cfg a q
  let staffMet := staffReqMet cfg a
  if profil == "Leader" && marginMet && staffMet then
    { currentLevel := lvl
      recommendation := "Promosi"
      nextLevel := some (cfg.nextLevelOf lvl)
      reason := "Profil Leader dengan realisasi margin dan struktur tim terpenuhi"
      konsekuensi := "Naik ke level " ++ cfg.nextLevelOf lvl
      nextStep := "Proses administrasi promosi"
      strategyType := "N/A"
      requirements := reqs }
  else if profil == "At-Risk" && (zonaFinal == "merah") &&
      !(marginMet || staffMet) then
    { currentLevel := lvl
      recommendation := "Demosi"
      nextLevel := none
      reason := "Profil At-Risk di zona merah tanpa strategi penyelamatan"
      konsekuensi := "Turun level"
      nextStep := "Evaluasi bersama atasan"
      strategyType := "N/A"
      requirements := reqs }
  else if (profil == "Performer" || profil == "At-Risk") &&
      (marginMet || staffMet) then
    { currentLevel := lvl
      recommendation := "Pembinaan"
      nextLevel := none
      reason := "Masih ada syarat penyelamatan yang terpenuhi"
      konsekuensi := "Program pembinaan intensif"
      nextStep := "Susun rencana pembinaan 90 hari"
      strategyType :=
        if staffAttainment cfg a ≤ marginAttainment cfg a q then
          "Save by Margin"
        else "Save by Staff"
      requirements := reqs }
  else
    { currentLevel := lvl
      recommendation := "Dipertahankan"
      nextLevel := none
      reason := "Tidak ada pemicu promosi, demosi, maupun pembinaan"
      konsekuensi := "Status level tetap"
      nextStep := "Lanjutkan target kuartal berikutnya"
      strategyType := "N/A"
      requirements := reqs }

/-- The 2-quarter team margin trend used by SWOT and EWS (§4.6):
latest quarter versus the one before. -/
def teamMarginTrend (a : AuditSubmission) : Int :=
  a.marginTimQ4 - a.marginTimQ3

/-- The SWOT shape of the `auditReport` jsonb. -/
structure SWOTAnalysis where
  strength : List String
  weakness : List String
  opportunity : List String
  threat : List String
deriving Repr, DecidableEq

/-- Modelled from the spec (§4.6, SWOT Synthesizer): reality ≥ 4 feeds
strengths, ≤ 2 feeds weaknesses, metric-backed pillars on an upward
trend feed opportunities, weak pillars on a negative trend feed
threats. -/
def swotOf (cfg : EngineConfig) (a : AuditSubmission)
    (ass : List PillarAssessment) : SWOTAnalysis :=
  { strength :=
      (ass.filter (fun x => decide (4 ≤ x.realityScore))).map
        (fun x => x.pillarName)
    weakness :=
      (ass.filter (fun x => decide (x.realityScore ≤ 2))).map
        (fun x => x.pillarName)
    opportunity :=
      (ass.filter (fun x =>
        cfg.isMetricBacked x.pillarId && decide (0 < teamMarginTrend a))).map
        (fun x => x.pillarName)
    threat :=
      (ass.filter (fun x =>
        decide (x.realityScore ≤ 2) && decide (teamMarginTrend a < 0))).map
        (fun x => x.pillarName) }

/-- Ordered insertion by ascending reality score, for selecting the
lowest-scoring pillars (§4.6). -/
def insertByScore (x : PillarAssessment) :
    List PillarAssessment → List PillarAssessment
  | [] => [x]
  | y :: ys =>
      if x.realityScore ≤ y.realityScore then x :: y :: ys
      else y :: insertByScore x ys

/-- Insertion sort of assessments by ascending reality score. -/
def sortByScore : List PillarAssessment → List PillarAssessment
  | [] => []
  | x :: xs => insertByScore x (sortByScore xs)

/-- One 30/60/90 action-plan item (§3 `ActionPlanItem`). -/
structure ActionPlanItem where
  periode : String
  target : String
  aktivitas : String
  pic : String
  output : String
deriving Repr, DecidableEq

/-- Modelled from the spec (§4.6): one action item per horizon with an
escalating target (stabilize, improve one band, reach the target band),
a responsible party by pillar category, and a measurable output. -/
def actionItemOf (cfg : EngineConfig) (periode : String)
    (p : PillarAssessment) : ActionPlanItem :=
  { periode := periode
    target :=
      if periode == "30 Hari" then
        "Stabilkan " ++ p.pillarName ++ " di skor " ++ toString p.realityScore
      else if periode == "60 Hari" then
        "Naikkan " ++ p.pillarName ++ " ke band " ++
          toString (p.realityScore + 1)
      else "Capai band target untuk " ++ p.pillarName
    aktivitas := "Program perbaikan " ++ p.pillarName
    pic := if cfg.isMetricBacked p.pillarId then "Manager" else "Self"
    output := "Skor " ++ p.pillarName ++ " terukur di akhir " ++ periode }

/-- The three horizon labels of the action plan. -/
def horizonLabels : List String := ["30 Hari", "60 Hari", "90 Hari"]

/-- Modelled from the spec (§4.6): 30/60/90 items generated for the
lowest-scoring pillars. -/
def actionPlanOf (cfg : EngineConfig) (ass : List PillarAssessment) :
    List ActionPlanItem :=
  (horizonLabels.zip ((sortByScore ass).take 3)).map
    (fun pr => actionItemOf cfg pr.1 pr.2)

/-- One early-warning-signal entry (§3 `EWSEntry`). -/
structure EWSEntry where
  faktor : String
  indikator : String
  risiko : String
  saranCepat : String
deriving Repr, DecidableEq

/-- Modelled from the spec (§4.6): one EWS entry per behavioral pillar
at reality ≤ 2, or per metric-backed pillar with a negative 2-quarter
trend, pairing a risk statement with a short-term mitigation. -/
def ewsOf (cfg : EngineConfig) (a : AuditSubmission)
    (ass : List PillarAssessment) : List EWSEntry :=
  (ass.filter (fun x =>
    (decide (x.realityScore ≤ 2) && !cfg.isMetricBacked x.pillarId) ||
    (cfg.isMetricBacked x.pillarId && decide (teamMarginTrend a < 0)))).map
    (fun x =>
      { faktor := x.pillarName
        indikator := "Skor reality " ++ toString x.realityScore
        risiko := "Risiko penurunan kinerja pada " ++ x.pillarName
        saranCepat := "Intervensi cepat 30 hari untuk " ++ x.pillarName })

/-- Numeric value of a decimal digit character. -/
def digitVal (c : Char) : Int := (c.toNat : Int) - 48

/-- Parse a DD-MM-YYYY string into (day, month, year); a string not in
that shape parses as (0, 0, 0). -/
def parseDDMMYYYY (s : String) : Int × Int × Int :=
  match s.data with
  | [a, b, '-', c, d, '-', e, f, g, h] =>
      (10 * digitVal a + digitVal b,
       10 * digitVal c + digitVal d,
       1000 * digitVal e + 100 * digitVal f + 10 * digitVal g + digitVal h)
  | _ => (0, 0, 0)

/-- Modelled from the spec (§4.8): the zodiac sign as a pure function
of birth day and month over the fixed calendar ranges. -/
def zodiakOf (day month : Int) : String :=
  if (month == 3 && decide (21 ≤ day)) || (month == 4 && decide (day ≤ 19)) then "Aries"
  else if (month == 4 && decide (20 ≤ day)) || (month == 5 && decide (day ≤ 20)) then "Taurus"
  else if (month == 5 && decide (21 ≤ day)) || (month == 6 && decide (day ≤ 20)) then "Gemini"
  else if (month == 6 && decide (21 ≤ day)) || (month == 7 && decide (day ≤ 22)) then "Cancer"
  else if (month == 7 && decide (23 ≤ day)) || (month == 8 && decide (day ≤ 22)) then "Leo"
  else if (month == 8 && decide (23 ≤ day)) || (month == 9 && decide (day ≤ 22)) then "Virgo"
  else if (month == 9 && decide (23 ≤ day)) || (month == 10 && decide (day ≤ 22)) then "Libra"
  else if (month == 10 && decide (23 ≤ day)) || (month == 11 && decide (day ≤ 21)) then "Scorpio"
  else if (month == 11 && decide (22 ≤ day)) || (month == 12 && decide (day ≤ 21)) then "Sagitarius"
  else if (month == 12 && decide (22 ≤ day)) || (month == 1 && decide (day ≤ 19)) then "Capricorn"
  else if (month == 1 && decide (20 ≤ day)) || (month == 2 && decide (day ≤ 18)) then "Aquarius"
  else "Pisces"

/-- Modelled from the spec (§4.8): the generational cohort as a pure
function of birth year over fixed boundary years. -/
def generasiOf (year : Int) : String :=
  if 1997 ≤ year then "Gen Z"
  else if 1981 ≤ year then "Millennial"
  else if 1965 ≤ year then "Gen X"
  else "Boomer"

/-- The magic-section shape (§3, the `magicSection` jsonb of the
`audits` table). -/
structure MagicSection where
  julukan : String
  narasi : String
  zodiak : String
  generasi : String
  zodiakBooster : String
  coachingHighlight : String
  callToAction : String
  quote : String
deriving Repr, DecidableEq

/-- Modelled from the spec (§4.8, Magic Section Generator): narrative
fields composed from templates keyed by (zodiak, generasi, profile),
with placeholder substitution for name and role. -/
def magicSectionOf (a : AuditSubmission) (profil : String) : MagicSection :=
  let dmy := parseDDMMYYYY a.tanggalLahir
  let z := zodiakOf dmy.1 dmy.2.1
  let g := generasiOf dmy.2.2
  { julukan := "Sang " ++ profil ++ " " ++ z
    narasi := a.nama ++ " sebagai " ++ a.jabatan ++ " menunjukkan karakter " ++
      profil ++ " dengan energi khas " ++ z ++ " generasi " ++ g
    zodiak := z
    generasi := g
    zodiakBooster := "Booster " ++ z ++ " untuk " ++ g
    coachingHighlight := "Sorotan coaching untuk " ++ a.nama
    callToAction := "Saatnya " ++ a.nama ++ " mengejar target kuartal berikutnya"
    quote := "Konsistensi adalah kunci pertumbuhan" }

/-- The 12-section audit report (§3, the `auditReport` jsonb of the
`audits` table). -/
structure AuditReport where
  executiveSummary : String
  insightLengkap : String
  swotAnalysis : SWOTAnalysis
  coachingPoints : List String
  actionPlan : List ActionPlanItem
  progressKuartal : QuarterProgress
  ews : List EWSEntry
  kesesuaianVisiStatus : String
  kesesuaianVisiNarasi : String

/-- The engine's sole output (§3 `AuditResult`): the computed columns
of the `audits` table. -/
structure AuditResult where
  pillarAnswers : List PillarAssessment
  totalSelfScore : Int
  totalRealityScore : Int
  totalGap : Int
  zonaKinerja : String
  zonaPerilaku : String
  zonaFinal : String
  profil : String
  auditReport : AuditReport
  prodemRekomendasi : ProDemRecommendation
  magicSection : MagicSection

/-- Modelled from the spec: `processAuditData` of the missing
`server/business-logic.ts`, the deterministic pipeline of §2/§4 — a
pure function of the submission, the static configuration and the
evaluation date (the latter read only by the Quarter Progress
Tracker). -/
def processAuditData (cfg : EngineConfig) (a : AuditSubmission)
    (d : EvalDate) : AuditResult :=
  let ass := assessmentsOf cfg a
  let totalSelf := totalSelfOf cfg a
  let totalReality := totalRealityOf cfg a
  let kinerja := ass.filter (fun x => cfg.isMetricBacked x.pillarId)
  let perilaku := ass.filter (fun x => !cfg.isMetricBacked x.pillarId)
  let zk := zona3Of (scaledSubtotal
    ((kinerja.map (fun x => x.realityScore)).sum) kinerja.length)
  let zp := zona3Of (scaledSubtotal
    ((perilaku.map (fun x => x.realityScore)).sum) perilaku.length)
  let zf := zonaFinalOf totalReality
  let prof := profileOf zk zp
  let q := kuartalOf d.month
  { pillarAnswers := ass
    totalSelfScore := totalSelf
    totalRealityScore := totalReality
    totalGap := totalSelf - totalReality
    zonaKinerja := zk
    zonaPerilaku := zp
    zonaFinal := zf
    profil := prof
    auditReport :=
      { executiveSummary :=
          "Ringkasan audit " ++ a.nama ++ " dengan profil " ++ prof
        insightLengkap :=
          String.intercalate "; " (ass.map (fun x => x.insight))
        swotAnalysis := swotOf cfg a ass
        coachingPoints :=
          ((sortByScore ass).take 3).map (fun x => "Perkuat " ++ x.pillarName)
        actionPlan := actionPlanOf cfg ass
        progressKuartal := quarterProgressOf cfg a d
        ews := ewsOf cfg a ass
        kesesuaianVisiStatus :=
          if zf == "hijau" then "Align"
          else if zf == "kuning" then "Perlu Penyesuaian"
          else "Belum Sesuai"
        kesesuaianVisiNarasi := "Kesesuaian visi pada zona " ++ zf }
    prodemRekomendasi := prodemOf cfg a prof zf q
    magicSection := magicSectionOf a prof }

/-- The two observable outcomes of `POST /api/audit` in
`server/routes.ts`: a created audit with its computed results, or a
structured validation error (HTTP 400) from `insertAuditSchema.parse`
with nothing computed. -/
inductive PostAuditOutcome where
  | created (audit : AuditResult)
  | validationError

/-- The `POST /api/audit` handler composed with
`DbStorage.createAudit`: validate the body first; on success run
`processAuditData` and append the stored audit; on a validation
failure return the structured error and leave the store untouched. -/
def postAudit (cfg : EngineConfig) (d : EvalDate)
    (store : List AuditResult) (body : AuditSubmission) :
    PostAuditOutcome × List AuditResult :=
  if insertAuditValid body then
    let audit := processAuditData cfg body d
    (PostAuditOutcome.created audit, store ++ [audit])
  else (PostAuditOutcome.validationError, store)

/-- The default calibration of §4.1: damping 0.8 (the spec's default
self-report-trust factor), a small positive epsilon, the first eight
pillars metric-backed and the rest behavioral, quarter-over-quarter
team margin as the metric, and fixed role-tier targets. -/
def defaultConfig : EngineConfig :=
  { damping := 4/5
    epsilon := 1/1000
    isMetricBacked := fun pid => decide (pid ≤ 8)
    pillarTitle := fun pid => "Pilar " ++ toString pid
    metricValue := fun a _ => ((a.marginTimQ4 - a.marginTimQ3 : Int) : ℚ)
    metricTarget := fun _ _ => (10000 : ℚ)
    targetMarginOf := fun lvl => if lvl == "BC" then 5000 else 10000
    targetNAOf := fun lvl => if lvl == "BC" then 5 else 10
    nextLevelOf := fun lvl => "Senior " ++ lvl
    nextTierMinStaff := 2 }

/-- Eighteen pillar self-answers, all with self score 5. -/
def allFivePillars : List PillarSelfAnswer :=
  (List.range 18).map (fun i => { pillarId := (i : Int) + 1, selfScore := 5 })

/-- The new-hire scenario of §8: a valid submission with all quarterly
metrics at 0 and all 18 self scores at 5. -/
def newHireSubmission : AuditSubmission :=
  { nama := "Andi"
    jabatan := "Business Consultant"
    cabang := "Jakarta"
    tanggalLahir := "05-08-1995"
    marginTimQ1 := 0, marginTimQ2 := 0, marginTimQ3 := 0, marginTimQ4 := 0
    naTimQ1 := 0, naTimQ2 := 0, naTimQ3 := 0, naTimQ4 := 0
    marginPribadiQ1 := 0, marginPribadiQ2 := 0
    marginPribadiQ3 := 0, marginPribadiQ4 := 0
    nasabahPribadiQ1 := 0, nasabahPribadiQ2 := 0
    nasabahPribadiQ3 := 0, nasabahPribadiQ4 := 0
    jumlahBC := 0, jumlahSBC := 0, jumlahBsM := 0, jumlahSBM := 0
    jumlahEM := 0, jumlahSEM := 0, jumlahVBM := 0, jumlahBrM := 0
    pillarAnswers := allFivePillars }

/-- A submission with an empty pillar list (and otherwise well-formed
fields), used to exercise the validation failure path. -/
def emptyPillarsSubmission : AuditSubmission :=
  { newHireSubmission with pillarAnswers := [] }

/-- A sample evaluation date: 4 November, day 308 of the year. -/
def sampleDate : EvalDate := { month := 11, dayOfYear := 308, year := 2025 }

theorem bucketScore_bounds (x : ℚ) :
    1 ≤ bucketScore x ∧ bucketScore x ≤ 5 := by
  unfold bucketScore
  split_ifs <;> omega

theorem round_le_five {x : ℚ} (hx : x ≤ 5) : round x ≤ 5 := by
  rw [round_eq]
  have hlt : x + 1 / 2 < (6 : ℚ) := by linarith
  have : ⌊x + 1 / 2⌋ < (6 : ℤ) := by
    rw [Int.floor_lt]
    exact_mod_cast hlt
  omega

theorem behavioralRealityScore_bounds (cfg : EngineConfig)
    (hdamp : cfg.damping ≤ 1) {s : Int} (hs1 : 1 ≤ s) (hs5 : s ≤ 5) :
    1 ≤ behavioralRealityScore cfg s ∧ behavioralRealityScore cfg s ≤ 5 := by
  unfold behavioralRealityScore
  refine ⟨le_max_left _ _, max_le (by omega) ?_⟩
  apply round_le_five
  have hs1q : (1 : ℚ) ≤ (s : ℚ) := by exact_mod_cast hs1
  have hs5q : (s : ℚ) ≤ 5 := by exact_mod_cast hs5
  rcases le_or_lt 0 cfg.damping with hd0 | hd0
  · calc (s : ℚ) * cfg.damping ≤ 5 * cfg.damping :=
          mul_le_mul_of_nonneg_right hs5q hd0
      _ ≤ 5 * 1 := by linarith
      _ = 5 := by norm_num
  · have : (s : ℚ) * cfg.damping ≤ 1 * cfg.damping := by
      apply mul_le_mul_of_nonpos_right hs1q (le_of_lt hd0)
    linarith

theorem realityScoreOf_bounds (cfg : EngineConfig) (a : AuditSubmission)
    (p : PillarSelfAnswer) (hdamp : cfg.damping ≤ 1)
    (hs1 : 1 ≤ p.selfScore) (hs5 : p.selfScore ≤ 5) :
    1 ≤ realityScoreOf cfg a p ∧ realityScoreOf cfg a p ≤ 5 := by
  unfold realityScoreOf
  split_ifs
  · exact behavioralRealityScore_bounds cfg hdamp hs1 hs5
  · exact bucketScore_bounds _
  · exact behavioralRealityScore_bounds cfg hdamp hs1 hs5

theorem length_le_sum : ∀ (l : List Int), (∀ x ∈ l, 1 ≤ x) →
    (l.length : Int) ≤ l.sum := by
  intro l
  induction l with
  | nil => simp
  | cons a t ih =>
      intro h
      have ha := h a (List.mem_cons_self a t)
      have ht := ih (fun x hx => h x (List.mem_cons_of_mem a hx))
      simp only [List.length_cons, List.sum_cons]
      push_cast
      linarith

theorem sum_le_five_mul : ∀ (l : List Int), (∀ x ∈ l, x ≤ 5) →
    l.sum ≤ 5 * (l.length : Int) := by
  intro l
  induction l with
  | nil => simp
  | cons a t ih =>
      intro h
      have ha := h a (List.mem_cons_self a t)
      have ht := ih (fun x hx => h x (List.mem_cons_of_mem a hx))
      simp only [List.length_cons, List.sum_cons]
      push_cast
      linarith

theorem sum_of_const : ∀ (l : List Int) (c : Int), (∀ x ∈ l, x = c) →
    l.sum = c * (l.length : Int) := by
  intro l c
  induction l with
  | nil => simp
  | cons a t ih =>
      intro h
      have ha := h a (List.mem_cons_self a t)
      have ht := ih (fun x hx => h x (List.mem_cons_of_mem a hx))
      simp only [List.length_cons, List.sum_cons, ht, ha]
      push_cast
      ring

theorem insertAuditValid_fields {a : AuditSubmission}
    (hv : insertAuditValid a = true) :
    a.pillarAnswers.length = 18 ∧
    matchesDDMMYYYY a.tanggalLahir = true ∧
    ∀ p ∈ a.pillarAnswers,
      1 ≤ p.pillarId ∧ p.pillarId ≤ 18 ∧
      1 ≤ p.selfScore ∧ p.selfScore ≤ 5 := by
  simp only [insertAuditValid, validPillarEntry, Bool.and_eq_true,
    decide_eq_true_eq, beq_iff_eq, List.all_eq_true] at hv
  obtain ⟨⟨⟨-, hdate⟩, hlen⟩, hall⟩ := hv
  refine ⟨hlen, hdate, fun p hp => ?_⟩
  obtain ⟨⟨⟨h1, h2⟩, h3⟩, h4⟩ := hall p hp
  exact ⟨h1, h2, h3, h4⟩

/-- C9: `hasPermission` is reflexive and monotone over the fixed role
hierarchy full_admin (4) > admin (3) > auditor (2) > regular_user (1):
every role passes its own check, full_admin passes every check, and
`hasPermission r1 r2` holds exactly when r1's hierarchy value is at
least r2's. -/
theorem hasPermission_hierarchy (r r1 r2 : Role) :
    hasPermission r r = true ∧
    hasPermission Role.full_admin r = true ∧
    (hasPermission r1 r2 = true ↔ roleHierarchy r1 ≥ roleHierarchy r2) := by
  refine ⟨?_, ?_, ?_⟩ <;>
    cases r <;> cases r1 <;> cases r2 <;>
    simp [hasPermission, roleHierarchy]

/-- Witness for C9 at a concrete pair of roles. -/
theorem hasPermission_hierarchy_check :
    hasPermission Role.admin Role.auditor = true :=
  ((hasPermission_hierarchy Role.admin Role.admin Role.auditor).2.2).mpr
    (by decide)

/-- C10: `canAccessAudit` grants full_admin and admin access to every
audit regardless of owner; for auditor and regular_user it grants
access exactly when the user id equals the owner id, so a non-admin
can never access an audit whose owner id is null. -/
theorem canAccessAudit_spec (uid : String) (oid : Option String) :
    canAccessAudit Role.full_admin uid oid = true ∧
    canAccessAudit Role.admin uid oid = true ∧
    (canAccessAudit Role.auditor uid oid = true ↔ oid = some uid) ∧
    (canAccessAudit Role.regular_user uid oid = true ↔ oid = some uid) ∧
    canAccessAudit Role.auditor uid none = false ∧
    canAccessAudit Role.regular_user uid none = false := by
  refine ⟨by simp [canAccessAudit], by simp [canAccessAudit], ?_, ?_,
    by simp [canAccessAudit], by simp [canAccessAudit]⟩ <;>
  · cases oid with
    | none => simp [canAccessAudit]
    | some o =>
        simp only [canAccessAudit, beq_iff_eq, Option.some.injEq,
          reduceCtorEq, if_false]
        exact eq_comm

/-- Witness for C10: a regular user reaches their own audit and no
auditor reaches an ownerless one. -/
theorem canAccessAudit_spec_check :
    canAccessAudit Role.regular_user "u1" (some "u1") = true ∧
    canAccessAudit Role.auditor "u1" none = false :=
  ⟨((canAccessAudit_spec "u1" (some "u1")).2.2.2.1).mpr rfl,
   (canAccessAudit_spec "u1" none).2.2.2.2.1⟩

/-- C8: `authenticateUser` returns null when no user carries the
username or when the password fails bcrypt verification against the
stored hash, and on success returns the matched record with the
password field removed (the result type carries no password). -/
theorem authenticateUser_spec (verify : String → String → Bool)
    (dbUsers : List UserRec) (username password : String) :
    (findUserByUsername dbUsers username = none →
      authenticateUser verify dbUsers username password = none) ∧
    (∀ u, findUserByUsername dbUsers username = some u →
      verify password u.password = false →
      authenticateUser verify dbUsers username password = none) ∧
    (∀ u, findUserByUsername dbUsers username = some u →
      verify password u.password = true →
      authenticateUser verify dbUsers username password =
        some (stripPassword u)) := by
  refine ⟨fun h => ?_, fun u hu hbad => ?_, fun u hu hok => ?_⟩
  · simp [authenticateUser, h]
  · simp [authenticateUser, hu, hbad]
  · simp [authenticateUser, hu, hok]

/-- A one-row user table for exercising the authentication path. -/
def sampleDb : List UserRec :=
  [{ id := "1", username := "superadmin", password := "stored-hash",
     name := "AiSG Admin Panel", role := Role.full_admin }]

/-- Witness for C8: authentication against the sample table succeeds
exactly on the stored hash and strips the password. -/
theorem authenticateUser_spec_check :
    authenticateUser (fun p h => p == h) sampleDb "superadmin" "stored-hash" =
      some { id := "1", username := "superadmin",
             name := "AiSG Admin Panel", role := Role.full_admin } :=
  (authenticateUser_spec (fun p h => p == h) sampleDb "superadmin"
    "stored-hash").2.2
    { id := "1", username := "superadmin", password := "stored-hash",
      name := "AiSG Admin Panel", role := Role.full_admin }
    (by decide) (by decide)

/-- C3: final-zone classification is a pure, total function of the
total reality score: `≥75 → hijau`, `51–74 → kuning`, `≤50 → merah`;
every total falls in one of the three buckets, and the engine's
`zonaFinal` is exactly this function of its `totalRealityScore`. -/
theorem zonaFinal_total (t : Int) :
    (75 ≤ t → zonaFinalOf t = "hijau") ∧
    (51 ≤ t ∧ t ≤ 74 → zonaFinalOf t = "kuning") ∧
    (t ≤ 50 → zonaFinalOf t = "merah") ∧
    (zonaFinalOf t = "hijau" ∨ zonaFinalOf t = "kuning" ∨
      zonaFinalOf t = "merah") ∧
    (∀ (cfg : EngineConfig) (a : AuditSubmission) (d : EvalDate),
      (processAuditData cfg a d).zonaFinal =
        zonaFinalOf (processAuditData cfg a d).totalRealityScore) := by
  refine ⟨fun h => ?_, fun h => ?_, fun h => ?_, ?_, fun cfg a d => rfl⟩
  · rw [zonaFinalOf, if_pos h]
  · rw [zonaFinalOf, if_neg (by omega), if_pos h.1]
  · rw [zonaFinalOf, if_neg (by omega), if_neg (by omega)]
  · unfold zonaFinalOf
    split_ifs <;> simp

/-- Witness for C3 at the boundary totals 50/51 and 74/75. -/
theorem zonaFinal_total_check :
    zonaFinalOf 50 = "merah" ∧ zonaFinalOf 51 = "kuning" ∧
    zonaFinalOf 74 = "kuning" ∧ zonaFinalOf 75 = "hijau" :=
  ⟨(zonaFinal_total 50).2.2.1 (by norm_num),
   (zonaFinal_total 51).2.1 (by norm_num),
   (zonaFinal_total 74).2.1 (by norm_num),
   (zonaFinal_total 75).1 (by norm_num)⟩

/-- C5: the ProDem `requirements` list always has length ≥ 1, and its
contents equal the branch-independent `requirementsOf` no matter which
of the four recommendation branches fired. -/
theorem prodem_requirements_invariant (cfg : EngineConfig)
    (a : AuditSubmission) (profil zf q : String) :
    (prodemOf cfg a profil zf q).requirements = requirementsOf cfg a q ∧
    1 ≤ (requirementsOf cfg a q).length := by
  constructor
  · simp only [prodemOf]
    split
    · rfl
    split
    · rfl
    split <;> rfl
  · simp [requirementsOf]

/-- C6: the engine is deterministic up to the evaluation date — two
runs on the same submission and date agree on the whole `AuditResult`,
and `sisaHari` is a function of the evaluation date alone (identical
across submissions). -/
theorem processAuditData_deterministic (cfg : EngineConfig)
    (a : AuditSubmission) (d : EvalDate) :
    processAuditData cfg a d = processAuditData cfg a d ∧
    (processAuditData cfg a d).auditReport.progressKuartal.sisaHari =
      sisaHariOf d ∧
    (∀ a' : AuditSubmission,
      (processAuditData cfg a d).auditReport.progressKuartal.sisaHari =
        (processAuditData cfg a' d).auditReport.progressKuartal.sisaHari) :=
  ⟨rfl, rfl, fun _ => rfl⟩

/-- C1: a submission whose pillar list does not have exactly 18
entries, or with a selfScore outside [1,5], or a pillarId outside
[1,18], or a birth date not matching DD-MM-YYYY, is rejected by
`insertAuditSchema.parse` before `storage.createAudit` runs: the
POST /api/audit pipeline answers with the structured validation error
and the store is unchanged — no derived field is computed or stored. -/
theorem postAudit_rejects_invalid (cfg : EngineConfig) (d : EvalDate)
    (store : List AuditResult) (body : AuditSubmission)
    (hbad : body.pillarAnswers.length ≠ 18 ∨
      (∃ p ∈ body.pillarAnswers, p.selfScore < 1 ∨ 5 < p.selfScore) ∨
      (∃ p ∈ body.pillarAnswers, p.pillarId < 1 ∨ 18 < p.pillarId) ∨
      matchesDDMMYYYY body.tanggalLahir = false) :
    postAudit cfg d store body =
      (PostAuditOutcome.validationError, store) := by
  have hv : insertAuditValid body = false := by
    cases hvb : insertAuditValid body with
    | false => rfl
    | true =>
        exfalso
        obtain ⟨hlen, hdate, hall⟩ := insertAuditValid_fields hvb
        rcases hbad with h1 | ⟨p, hp, hps⟩ | ⟨p, hp, hpi⟩ | h4
        · exact h1 hlen
        · obtain ⟨-, -, hs1, hs5⟩ := hall p hp
          omega
        · obtain ⟨hi1, hi18, -, -⟩ := hall p hp
          omega
        · simp [hdate] at h4
  simp [postAudit, hv]

/-- Witness for C1: an empty pillar list is rejected and stores
nothing. -/
theorem postAudit_rejects_invalid_check :
    postAudit defaultConfig sampleDate [] emptyPillarsSubmission =
      (PostAuditOutcome.validationError, []) :=
  postAudit_rejects_invalid defaultConfig sampleDate [] emptyPillarsSubmission
    (Or.inl (by decide))

/-- C4: for every pillar of a valid submission, the derived assessment
has `realityScore ∈ [1,5]` and `gap = selfScore - realityScore`
exactly. -/
theorem pillarAssessment_spec (cfg : EngineConfig) (a : AuditSubmission)
    (p : PillarSelfAnswer) (hdamp : cfg.damping ≤ 1)
    (hp : p ∈ a.pillarAnswers) (hv : insertAuditValid a = true) :
    1 ≤ (mkAssessment cfg a p).realityScore ∧
    (mkAssessment cfg a p).realityScore ≤ 5 ∧
    (mkAssessment cfg a p).gap =
      (mkAssessment cfg a p).selfScore -
        (mkAssessment cfg a p).realityScore := by
  obtain ⟨-, -, hall⟩ := insertAuditValid_fields hv
  obtain ⟨-, -, hs1, hs5⟩ := hall p hp
  have hb := realityScoreOf_bounds cfg a p hdamp hs1 hs5
  exact ⟨hb.1, hb.2, rfl⟩

/-- Witness for C4 at the first pillar of the new-hire submission. -/
theorem pillarAssessment_spec_check :
    1 ≤ (mkAssessment defaultConfig newHireSubmission
      { pillarId := 1, selfScore := 5 }).realityScore ∧
    (mkAssessment defaultConfig newHireSubmission
      { pillarId := 1, selfScore := 5 }).realityScore ≤ 5 :=
  ⟨(pillarAssessment_spec defaultConfig newHireSubmission
      { pillarId := 1, selfScore := 5 } (by norm_num [defaultConfig])
      (by decide) (by decide)).1,
   (pillarAssessment_spec defaultConfig newHireSubmission
      { pillarId := 1, selfScore := 5 } (by norm_num [defaultConfig])
      (by decide) (by decide)).2.1⟩

/-- C2: for every valid submission, `totalRealityScore` equals the sum
of the 18 per-pillar reality scores and lies in [18, 90]. -/
theorem totalReality_sum_range (cfg : EngineConfig) (a : AuditSubmission)
    (d : EvalDate) (hdamp : cfg.damping ≤ 1)
    (hv : insertAuditValid a = true) :
    (processAuditData cfg a d).totalRealityScore =
      (((processAuditData cfg a d).pillarAnswers).map
        (fun x => x.realityScore)).sum ∧
    18 ≤ (processAuditData cfg a d).totalRealityScore ∧
    (processAuditData cfg a d).totalRealityScore ≤ 90 := by
  obtain ⟨hlen, -, hall⟩ := insertAuditValid_fields hv
  have hmem : ∀ x ∈ (assessmentsOf cfg a).map (fun y => y.realityScore),
      1 ≤ x ∧ x ≤ 5 := by
    intro x hx
    simp only [assessmentsOf, List.map_map] at hx
    obtain ⟨p, hp, rfl⟩ := List.mem_map.mp hx
    obtain ⟨-, -, hs1, hs5⟩ := hall p hp
    exact realityScoreOf_bounds cfg a p hdamp hs1 hs5
  have hlength :
      ((assessmentsOf cfg a).map (fun y => y.realityScore)).length = 18 := by
    simp [assessmentsOf, hlen]
  have htot : (processAuditData cfg a d).totalRealityScore =
      ((assessmentsOf cfg a).map (fun y => y.realityScore)).sum := rfl
  refine ⟨rfl, ?_, ?_⟩
  · rw [htot]
    have h1 := length_le_sum _ (fun x hx => (hmem x hx).1)
    rw [hlength] at h1
    exact_mod_cast h1
  · rw [htot]
    have h2 := sum_le_five_mul _ (fun x hx => (hmem x hx).2)
    rw [hlength] at h2
    calc ((assessmentsOf cfg a).map (fun y => y.realityScore)).sum
        ≤ 5 * ((18 : Nat) : Int) := h2
      _ = 90 := by norm_num

/-- Witness for C2 on the new-hire submission under the default
configuration. -/
theorem totalReality_sum_range_check :
    18 ≤ (processAuditData defaultConfig newHireSubmission
      sampleDate).totalRealityScore ∧
    (processAuditData defaultConfig newHireSubmission
      sampleDate).totalRealityScore ≤ 90 :=
  ⟨(totalReality_sum_range defaultConfig newHireSubmission sampleDate
      (by norm_num [defaultConfig]) (by decide)).2.1,
   (totalReality_sum_range defaultConfig newHireSubmission sampleDate
      (by norm_num [defaultConfig]) (by decide)).2.2⟩

/-- C7: on an all-zero-metrics (new-hire) submission the normalization
denominator is never zero, every pillar falls back to the behavioral
damping formula, and with all self scores 5 and damping 0.8 every
reality score is 4, so the total is 72 — fully determined by the
damping constant. -/
theorem newHire_damping_fallback (cfg : EngineConfig)
    (a : AuditSubmission) (d : EvalDate) (heps : 0 < cfg.epsilon)
    (hdamp : cfg.damping = 4/5)
    (hzero : allQuarterMetricsZero a = true)
    (hself : ∀ p ∈ a.pillarAnswers, p.selfScore = 5)
    (hv : insertAuditValid a = true) :
    (∀ pid : Int, normDenominator cfg a pid ≠ 0) ∧
    (∀ p ∈ a.pillarAnswers,
      realityScoreOf cfg a p = behavioralRealityScore cfg p.selfScore ∧
      realityScoreOf cfg a p = 4) ∧
    (processAuditData cfg a d).totalRealityScore = 72 := by
  have hden : ∀ pid : Int, normDenominator cfg a pid ≠ 0 := by
    intro pid
    have hpos : (0 : ℚ) < normDenominator cfg a pid :=
      lt_of_lt_of_le heps (le_max_right _ _)
    exact hpos.ne'
  have hfall : ∀ p ∈ a.pillarAnswers,
      realityScoreOf cfg a p = behavioralRealityScore cfg p.selfScore := by
    intro p hp
    simp [realityScoreOf, hzero]
  have hfour : ∀ p ∈ a.pillarAnswers, realityScoreOf cfg a p = 4 := by
    intro p hp
    rw [hfall p hp, hself p hp]
    unfold behavioralRealityScore
    rw [hdamp]
    norm_num
  have hconst : ∀ x ∈ (assessmentsOf cfg a).map (fun y => y.realityScore),
      x = 4 := by
    intro x hx
    simp only [assessmentsOf, List.map_map] at hx
    obtain ⟨p, hp, rfl⟩ := List.mem_map.mp hx
    exact hfour p hp
  obtain ⟨hlen, -, -⟩ := insertAuditValid_fields hv
  have hlength :
      ((assessmentsOf cfg a).map (fun y => y.realityScore)).length = 18 := by
    simp [assessmentsOf, hlen]
  have htot : (processAuditData cfg a d).totalRealityScore =
      ((assessmentsOf cfg a).map (fun y => y.realityScore)).sum := rfl
  refine ⟨hden, fun p hp => ⟨hfall p hp, hfour p hp⟩, ?_⟩
  rw [htot, sum_of_const _ 4 hconst, hlength]
  norm_num

/-- Witness for C7: the concrete new-hire submission under the default
configuration (damping 0.8) totals 72. -/
theorem newHire_damping_fallback_check :
    (processAuditData defaultConfig newHireSubmission
      sampleDate).totalRealityScore = 72 :=
  (newHire_damping_fallback defaultConfig newHireSubmission sampleDate
    (by norm_num [defaultConfig]) rfl (by decide) (by decide)
    (by decide)).2.2

end AiSG
